import Mathlib

/-!
Verification of the geometry core of `SimpleCV/Features/Features.py`
(classes `FeatureSet` and `Feature`).

Modelling conventions (shallow embedding):
* Python numbers (ints and floats) are modelled as exact rationals `ℚ`.
  Every concrete input appearing in the theorems below uses small integers,
  for which Python float arithmetic is exact, so the `ℚ` model agrees with
  the float semantics on those inputs.
* A Python float division raises `ZeroDivisionError` when the denominator
  is zero; fallible computations therefore return `Except Unit _`, with
  `Except.error ()` standing for an uncaught exception.
* `warnings.warn` is modelled by a `warned : Bool` flag carried in results.
* The lazily memoised extent cache (`mMaxX` … and the instance attribute
  `boundingBox` written by `_updateExtents`) is modelled by explicit state
  passing: methods that may populate the cache return the updated `Feature`.
  An extent field that is still Python `None` is `Option.none`.
  `float("-infinity")` / `float("infinity")` survive the scan only when
  `points` is empty; that situation is modelled by `none` extents and an
  empty corner list (no finite corner exists in that degenerate case).
* In the Python class, the class attribute `boundingBox = []` (line 821) is
  shadowed by the later method definition `def boundingBox(self)` (line
  1150), and the instance attribute is only assigned inside
  `_updateExtents`.  Reading `self.boundingBox` on a feature whose extents
  were never computed therefore yields the *bound method object*, never a
  list; `len()` of it or iterating over it raises an uncaught `TypeError`.
  The model splits this in two layers: the `Feature` record carries the
  list value of the instance attribute once it has been written, and
  `PyFeature` additionally records whether `_updateExtents` has written it.
  `readBBAttr` is the attribute read: `some` list once written, `none` for
  the bound method, and every list operation on `none` is the uncaught
  `TypeError` (`Except.error ()`).  `Feature.contains` / `Feature.overlaps`
  / `Feature.isContainedWithin` are the attribute-written projections (the
  states about which the containment claims quantify); `containsPy` /
  `overlapsPy` / `isContainedWithinPy` are the attribute-aware embeddings,
  which agree with the projections once the attribute is written
  (`containsPy_agrees_when_set`).
-/

namespace SimpleCV

/-- A 2-D coordinate `(x, y)`. -/
abbrev Pt : Type := ℚ × ℚ

/-- The owning image surface; only its pixel dimensions matter here. -/
structure Image where
  w : ℚ
  h : ℚ
deriving DecidableEq

/-- `Image.size()` returns the `(width, height)` tuple. -/
def Image.size (i : Image) : Pt := (i.w, i.h)

/-- State of a `Feature` instance: representative coordinate, backing image,
boundary points, the four memoised extent fields (Python `None` ↝ `none`)
and the list value of the `boundingBox` instance attribute once
`_updateExtents` has written it.  Whether that attribute has been written —
before that, reading `self.boundingBox` yields the shadowing bound method —
is tracked separately by `PyFeature`; the field below is an unread
placeholder until then. -/
structure Feature where
  x : ℚ
  y : ℚ
  image : Image
  points : List Pt
  mMaxX : Option ℚ
  mMaxY : Option ℚ
  mMinX : Option ℚ
  mMinY : Option ℚ
  boundingBox : List Pt
deriving DecidableEq

/-- The core record of `Feature.__init__(self, i, at_x, at_y)`: sets `x`,
`y`, `image`; every other field keeps its class-level default
(`points = []`, extents unset).  The `boundingBox` field is the `[]`
placeholder of the not-yet-written instance attribute; attribute-state
aware code must pair this with `bbSet = false` (see `PyFeature` and
`mkFeaturePy`), since the Python attribute read on a fresh feature yields
the shadowing bound method, not this list. -/
def mkFeature (i : Image) (atX atY : ℚ) : Feature :=
  ⟨atX, atY, i, [], none, none, none, none, []⟩

/-- The region-descriptor shapes dispatched on by the relational predicates:
another feature, an `(x,y)` tuple (or length-2 ndarray), an `(x,y,r)`
circle tuple, an `(x,y,w,h)` box tuple, a list of points (polygon),
a bare scalar, or anything of an unrecognized shape. -/
inductive Region where
  | feature (f : Feature)
  | point (p : Pt)
  | circle (cx cy cr : ℚ)
  | box (x0 y0 w0 h0 : ℚ)
  | poly (ps : List Pt)
  | scalar (v : ℚ)
  | unrecognized
deriving DecidableEq

/-- Running maximum of a list (the Python scan starts at `float("-infinity")`
and keeps strictly larger values; the resulting value is the maximum,
`none` when the list is empty and the sentinel survives). -/
def maxO (l : List ℚ) : Option ℚ :=
  l.foldl (fun a v => match a with | none => some v | some m => some (if m ≤ v then v else m)) none

/-- Running minimum, dual to `maxO` (`none` ↝ the `float("infinity")` sentinel). -/
def minO (l : List ℚ) : Option ℚ :=
  l.foldl (fun a v => match a with | none => some v | some m => some (if v ≤ m then v else m)) none

/-- The 4-corner list `[(minX,minY),(minX,maxY),(maxX,maxY),(maxX,minY)]`
assigned to `self.boundingBox` by `_updateExtents`, computed from a point
list.  When `points` is empty the Python corners would all be infinite;
no finite corner exists and the model returns `[]`. -/
def derivedCorners (pts : List Pt) : List Pt :=
  match minO (pts.map Prod.fst), minO (pts.map Prod.snd),
        maxO (pts.map Prod.fst), maxO (pts.map Prod.snd) with
  | some a, some b, some c, some d => [(a, b), (a, d), (c, d), (c, b)]
  | _, _, _, _ => []

/-- `Feature._updateExtents`: if any of the four extent fields is unset,
scan `points` once, memoise min/max per axis and write the 4-corner
`boundingBox` instance attribute; otherwise do nothing. -/
def updateExtents (f : Feature) : Feature :=
  if f.mMaxX = none ∨ f.mMaxY = none ∨ f.mMinX = none ∨ f.mMinY = none then
    { f with
      mMaxX := maxO (f.points.map Prod.fst)
      mMaxY := maxO (f.points.map Prod.snd)
      mMinX := minO (f.points.map Prod.fst)
      mMinY := minO (f.points.map Prod.snd)
      boundingBox := derivedCorners f.points }
  else f

/-- Value returned by `Feature.maxX()` (after `_updateExtents`). -/
def maxXv (f : Feature) : Option ℚ := (updateExtents f).mMaxX

/-- Value returned by `Feature.maxY()`. -/
def maxYv (f : Feature) : Option ℚ := (updateExtents f).mMaxY

/-- Value returned by `Feature.minX()`. -/
def minXv (f : Feature) : Option ℚ := (updateExtents f).mMinX

/-- Value returned by `Feature.minY()`. -/
def minYv (f : Feature) : Option ℚ := (updateExtents f).mMinY

/-- `Feature.topLeftCorner()` = `(self.mMinX, self.mMinY)` after `_updateExtents`. -/
def topLeftCorner (f : Feature) : Option ℚ × Option ℚ :=
  ((updateExtents f).mMinX, (updateExtents f).mMinY)

/-- `Feature.bottomRightCorner()` = `(self.mMaxX, self.mMaxY)` after `_updateExtents`. -/
def bottomRightCorner (f : Feature) : Option ℚ × Option ℚ :=
  ((updateExtents f).mMaxX, (updateExtents f).mMaxY)

/-- `Feature.width()`: rescans `points` directly (no cache); returns `1`
when `points` is empty, else `maxX - minX`. -/
def Feature.width (f : Feature) : ℚ :=
  if f.points = [] then 1
  else (maxO (f.points.map Prod.fst)).getD 0 - (minO (f.points.map Prod.fst)).getD 0

/-- `Feature.height()`: as `width`, on the y coordinates. -/
def Feature.height (f : Feature) : ℚ :=
  if f.points = [] then 1
  else (maxO (f.points.map Prod.snd)).getD 0 - (minO (f.points.map Prod.snd)).getD 0

/-- `Feature.area()` = `self.width() * self.height()`. -/
def Feature.area (f : Feature) : ℚ := f.width * f.height

/-- `np.min` on a pair of (exactly represented) numbers. -/
def pymin (a b : ℚ) : ℚ := if a ≤ b then a else b

/-- `np.max` on a pair of (exactly represented) numbers. -/
def pymax (a b : ℚ) : ℚ := if b ≤ a then a else b

/-- Python `int()` truncation toward zero, on an exact rational. -/
def pyInt (q : ℚ) : ℤ := if q < 0 then ⌈q⌉ else ⌊q⌋

/-- The conversion `p2 = (int(p[0]), int(p[1]))` used by `Feature.contains`
on another feature's points. -/
def pyIntPt (p : Pt) : Pt := ((pyInt p.1 : ℚ), (pyInt p.2 : ℚ))

deriving instance DecidableEq for Except

/-- Outcome of `_pointInsidePolygon`: whether `warnings.warn` fired, and
either the returned Bool or an uncaught `ZeroDivisionError`. -/
structure PipRes where
  warned : Bool
  value : Except Unit Bool
deriving DecidableEq

/-- One iteration of the `_pointInsidePolygon` edge loop, for the edge
`(p1, p2)`: the nested comparisons, then
`test = float((point[1]-p1[1])*(p2[0]-p1[0])) / float(((p2[1]-p1[1])+p1[0]))`
(note the denominator really is `(p2.y - p1.y) + p1.x` in the source),
raising `ZeroDivisionError` when that denominator is zero, and the crossing
count update.  The division is evaluated before the
`p1[0] == p2[0] or point[0] <= test` test, exactly as in the source. -/
def edgeStep (point p1 p2 : Pt) (counter : ℕ) : Except Unit ℕ :=
  if pymin p1.2 p2.2 < point.2 then
    if point.2 ≤ pymax p1.2 p2.2 then
      if point.1 ≤ pymax p1.1 p2.1 then
        if p1.2 ≠ p2.2 then
          if (p2.2 - p1.2) + p1.1 = 0 then Except.error ()
          else
            let test : ℚ := ((point.2 - p1.2) * (p2.1 - p1.1)) / ((p2.2 - p1.2) + p1.1)
            if p1.1 = p2.1 ∨ point.1 ≤ test then Except.ok (counter + 1)
            else Except.ok counter
        else Except.ok counter
      else Except.ok counter
    else Except.ok counter
  else Except.ok counter

/-- The edges walked by the `_pointInsidePolygon` loop over the closed list
`poly = polygon + [polygon[0]]`: for `i in range(1, N+1)` the edge is
`(poly[i-1], poly[i % N])`, i.e. the pairs of `poly` zipped with its own
rotation by one. -/
def pipEdges (poly : List Pt) : List (Pt × Pt) :=
  poly.zip (poly.drop 1 ++ poly.take 1)

/-- The crossing-count loop: run `edgeStep` over the edges, aborting on the
first `ZeroDivisionError` (Python unwinds at the raise). -/
def pipGo (point : Pt) : List (Pt × Pt) → ℕ → Except Unit ℕ
  | [], c => Except.ok c
  | e :: rest, c =>
    match edgeStep point e.1 e.2 c with
    | Except.error u => Except.error u
    | Except.ok c2 => pipGo point rest c2

/-- `Feature._pointInsidePolygon(point, polygon)`: fewer than 3 vertices
warns and returns `False`; otherwise the ray-casting parity loop runs and
the result is `counter % 2 != 0` (initial `retVal = True` is overwritten
with `False` on an even count). -/
def pointInsidePolygon (point : Pt) (polygon : List Pt) : PipRes :=
  if polygon.length < 3 then ⟨true, Except.ok false⟩
  else
    match pipGo point (pipEdges (polygon ++ [polygon.headD (0, 0)])) 0 with
    | Except.error e => ⟨false, Except.error e⟩
    | Except.ok c => ⟨false, Except.ok (!(c % 2 == 0))⟩

/-- Result of a containment/overlap predicate: warning flag, returned value
(or uncaught exception), and the possibly-updated receiver (the receiver
changes only when a branch invokes the lazy extent accessors). -/
structure COut where
  warned : Bool
  value : Except Unit Bool
  selfF : Feature
deriving DecidableEq

/-- The loop `for p in pts: retVal = pip(p, polygon); if not retVal: break`
(with `retVal` initially `True`): true iff every point passes, stopping at
the first failure, accumulating warnings, aborting on an exception. -/
def allPipGo (polygon : List Pt) (warned : Bool) : List Pt → Bool × Except Unit Bool
  | [] => (warned, Except.ok true)
  | p :: rest =>
    let r := pointInsidePolygon p polygon
    match r.value with
    | Except.error e => (warned || r.warned, Except.error e)
    | Except.ok b =>
      if b then allPipGo polygon (warned || r.warned) rest
      else (warned || r.warned, Except.ok false)

/-- The loop `for p in pts: retVal = pip(p, polygon); if retVal: break`
(with `retVal` initially `init`): true at the first success; `init` is
returned for an empty list (the overlap-with-Feature branch starts with
`retVal = True`, the polygon branch with `False`). -/
def anyPipGo (polygon : List Pt) (warned : Bool) (init : Bool) :
    List Pt → Bool × Except Unit Bool
  | [] => (warned, Except.ok init)
  | p :: rest =>
    let r := pointInsidePolygon p polygon
    match r.value with
    | Except.error e => (warned || r.warned, Except.error e)
    | Except.ok b =>
      if b then (warned || r.warned, Except.ok true)
      else anyPipGo polygon (warned || r.warned) b rest

/-- Comparison `extent <= bound` where the extent is a max-type value whose
`none` stands for the `float("-infinity")` sentinel of an empty point list. -/
def leMaxE : Option ℚ → ℚ → Bool
  | none, _ => true
  | some v, b => decide (v ≤ b)

/-- Comparison `extent >= bound` where the extent is a min-type value whose
`none` stands for the `float("infinity")` sentinel. -/
def geMinE : Option ℚ → ℚ → Bool
  | none, _ => true
  | some v, b => decide (b ≤ v)

/-- `Feature.contains(self, other)` on a feature whose `boundingBox`
instance attribute has been written and holds the list `boundingBox` (the
attribute-written projection of `containsPy`): reads
`bounds = self.boundingBox` (the attribute, without computing extents) and
dispatches on the shape of `other`.  Feature: every point of
`other.points` (int-truncated) inside `bounds`; 2-tuple: point-in-`bounds`;
3-tuple circle: no corner of `bounds` strictly inside the circle; 4-tuple
box: extent comparisons (this branch calls `maxX()` … and hence runs
`_updateExtents`); list of ≥ 4 points: every listed point inside `bounds`;
anything else warns and returns `False`. -/
def Feature.contains (f : Feature) (o : Region) : COut :=
  match o with
  | Region.feature g =>
    let r := allPipGo f.boundingBox false (g.points.map pyIntPt)
    ⟨r.1, r.2, f⟩
  | Region.point p =>
    let r := pointInsidePolygon p f.boundingBox
    ⟨r.warned, r.value, f⟩
  | Region.circle cx cy cr =>
    ⟨false, Except.ok (f.boundingBox.all fun p =>
      !(decide ((cx - p.1) * (cx - p.1) + (cy - p.2) * (cy - p.2) < cr * cr))), f⟩
  | Region.box x0 y0 w0 h0 =>
    let f2 := updateExtents f
    ⟨false, Except.ok (leMaxE f2.mMaxX (x0 + w0) && geMinE f2.mMinX x0 &&
                       leMaxE f2.mMaxY (y0 + h0) && geMinE f2.mMinY y0), f2⟩
  | Region.poly ps =>
    if 4 ≤ ps.length then
      let r := allPipGo f.boundingBox false ps
      ⟨r.1, r.2, f⟩
    else ⟨true, Except.ok false, f⟩
  | Region.scalar _ => ⟨true, Except.ok false, f⟩
  | Region.unrecognized => ⟨true, Except.ok false, f⟩

/-- `Feature.overlaps(self, other)` on attribute-written states (the
projection of `overlapsPy`): reads `bounds = self.boundingBox` and
dispatches.  Feature: any corner of `other.boundingBox` inside `bounds`
(`retVal` starts `True`, so an empty corner list yields `True`); 2-tuple:
point test; 3-tuple circle: any corner of `bounds` strictly inside the
circle; 4-tuple box: `self.contains` on each of the box's four corners,
short-circuit or; list of ≥ 3 points: any listed point inside `bounds`;
anything else warns and returns `False`. -/
def Feature.overlaps (f : Feature) (o : Region) : COut :=
  match o with
  | Region.feature g =>
    let r := anyPipGo f.boundingBox false true g.boundingBox
    ⟨r.1, r.2, f⟩
  | Region.point p =>
    let r := pointInsidePolygon p f.boundingBox
    ⟨r.warned, r.value, f⟩
  | Region.circle cx cy cr =>
    ⟨false, Except.ok (f.boundingBox.any fun p =>
      decide ((cx - p.1) * (cx - p.1) + (cy - p.2) * (cy - p.2) < cr * cr)), f⟩
  | Region.box x0 y0 w0 h0 =>
    let r := anyPipGo f.boundingBox false false
      [(x0, y0), (x0 + w0, y0), (x0, y0 + h0), (x0 + w0, y0 + h0)]
    ⟨r.1, r.2, f⟩
  | Region.poly ps =>
    if 3 ≤ ps.length then
      let r := anyPipGo f.boundingBox false false ps
      ⟨r.1, r.2, f⟩
    else ⟨true, Except.ok false, f⟩
  | Region.scalar _ => ⟨true, Except.ok false, f⟩
  | Region.unrecognized => ⟨true, Except.ok false, f⟩

/-- `Feature.isContainedWithin(self, other)` on attribute-written states
(the projection of `isContainedWithinPy`): Feature: delegates to
`other.contains(self)`; 3-tuple circle: every corner of
`self.boundingBox` within the radius (squared distance not above `r²`);
4-tuple box: extent comparisons (runs `_updateExtents`); list of > 2
points: every corner of `self.boundingBox` inside that polygon; anything
else (including a bare 2-tuple) warns and returns `False`. -/
def Feature.isContainedWithin (f : Feature) (o : Region) : COut :=
  match o with
  | Region.feature g =>
    let c := Feature.contains g (Region.feature f)
    ⟨c.warned, c.value, f⟩
  | Region.circle cx cy cr =>
    ⟨false, Except.ok (f.boundingBox.all fun p =>
      !(decide (cr * cr < (cx - p.1) * (cx - p.1) + (cy - p.2) * (cy - p.2)))), f⟩
  | Region.box x0 y0 w0 h0 =>
    let f2 := updateExtents f
    ⟨false, Except.ok (leMaxE f2.mMaxX (x0 + w0) && geMinE f2.mMinX x0 &&
                       leMaxE f2.mMaxY (y0 + h0) && geMinE f2.mMinY y0), f2⟩
  | Region.poly ps =>
    if 2 < ps.length then
      let r := allPipGo ps false f.boundingBox
      ⟨r.1, r.2, f⟩
    else ⟨true, Except.ok false, f⟩
  | Region.point _ => ⟨true, Except.ok false, f⟩
  | Region.scalar _ => ⟨true, Except.ok false, f⟩
  | Region.unrecognized => ⟨true, Except.ok false, f⟩

/-- A `Feature` instance together with whether the `boundingBox` instance
attribute has been written by `_updateExtents`.  While `bbSet = false`,
reading `self.boundingBox` yields the bound method `boundingBox`
(`def boundingBox(self)` at line 1150 shadows the class attribute `[]` of
line 821), and `core.boundingBox` is an unread placeholder. -/
structure PyFeature where
  core : Feature
  bbSet : Bool
deriving DecidableEq

/-- `Feature.__init__` with the attribute state: fresh core, attribute not
written. -/
def mkFeaturePy (i : Image) (atX atY : ℚ) : PyFeature :=
  ⟨mkFeature i atX atY, false⟩

/-- The attribute read `self.boundingBox`: the stored list once
`_updateExtents` has written the instance attribute, otherwise the
shadowing bound method, modelled `none` — every list operation on it
raises an uncaught `TypeError`. -/
def readBBAttr (f : PyFeature) : Option (List Pt) :=
  if f.bbSet then some f.core.boundingBox else none

/-- `Feature._updateExtents` on the attribute-aware state: when any extent
field is unset it recomputes them and writes the `boundingBox` instance
attribute (so subsequent attribute reads yield the corner list). -/
def updateExtentsPy (f : PyFeature) : PyFeature :=
  if f.core.mMaxX = none ∨ f.core.mMaxY = none ∨ f.core.mMinX = none ∨ f.core.mMinY = none
  then ⟨updateExtents f.core, true⟩
  else f

/-- `_pointInsidePolygon` applied to an attribute read: passing the bound
method makes `len(polygon)` raise an uncaught `TypeError` before anything
else (no warning, no return value); a list behaves as usual. -/
def pipAttr (point : Pt) (polygon : Option (List Pt)) : PipRes :=
  match polygon with
  | none => ⟨false, Except.error ()⟩
  | some l => pointInsidePolygon point l

/-- `allPipGo` with an attribute read as the polygon argument (the loop
aborts with `TypeError` at its first `pip` call when the read yielded the
bound method; an empty point list never reaches `pip`). -/
def allPipGoA (polygon : Option (List Pt)) (warned : Bool) :
    List Pt → Bool × Except Unit Bool
  | [] => (warned, Except.ok true)
  | p :: rest =>
    let r := pipAttr p polygon
    match r.value with
    | Except.error e => (warned || r.warned, Except.error e)
    | Except.ok b =>
      if b then allPipGoA polygon (warned || r.warned) rest
      else (warned || r.warned, Except.ok false)

/-- `anyPipGo` with an attribute read as the polygon argument. -/
def anyPipGoA (polygon : Option (List Pt)) (warned : Bool) (init : Bool) :
    List Pt → Bool × Except Unit Bool
  | [] => (warned, Except.ok init)
  | p :: rest =>
    let r := pipAttr p polygon
    match r.value with
    | Except.error e => (warned || r.warned, Except.error e)
    | Except.ok b =>
      if b then (warned || r.warned, Except.ok true)
      else anyPipGoA polygon (warned || r.warned) b rest

/-- Region descriptors for the attribute-aware predicates: as `Region`, but
a feature argument carries its own attribute state (`overlaps` iterates
`other.boundingBox`). -/
inductive RegionA where
  | feature (g : PyFeature)
  | point (p : Pt)
  | circle (cx cy cr : ℚ)
  | box (x0 y0 w0 h0 : ℚ)
  | poly (ps : List Pt)
  | scalar (v : ℚ)
  | unrecognized
deriving DecidableEq

/-- Result of an attribute-aware containment/overlap predicate. -/
structure AOut where
  warned : Bool
  value : Except Unit Bool
  selfF : PyFeature
deriving DecidableEq

/-- `Feature.contains(self, other)`, attribute-aware: `bounds` is the
attribute read `readBBAttr self`; on a never-populated feature every
branch that applies a list operation to `bounds` raises `TypeError`
(`for p in bounds` of the circle branch directly, the point/Feature/
polygon branches inside `_pointInsidePolygon`'s `len`); the 4-tuple box
branch never touches `bounds` and runs `_updateExtents` instead. -/
def containsPy (f : PyFeature) (o : RegionA) : AOut :=
  match o with
  | RegionA.feature g =>
    let r := allPipGoA (readBBAttr f) false (g.core.points.map pyIntPt)
    ⟨r.1, r.2, f⟩
  | RegionA.point p =>
    let r := pipAttr p (readBBAttr f)
    ⟨r.warned, r.value, f⟩
  | RegionA.circle cx cy cr =>
    match readBBAttr f with
    | none => ⟨false, Except.error (), f⟩
    | some l =>
      ⟨false, Except.ok (l.all fun p =>
        !(decide ((cx - p.1) * (cx - p.1) + (cy - p.2) * (cy - p.2) < cr * cr))), f⟩
  | RegionA.box x0 y0 w0 h0 =>
    let f2 := updateExtentsPy f
    ⟨false, Except.ok (leMaxE f2.core.mMaxX (x0 + w0) && geMinE f2.core.mMinX x0 &&
                       leMaxE f2.core.mMaxY (y0 + h0) && geMinE f2.core.mMinY y0), f2⟩
  | RegionA.poly ps =>
    if 4 ≤ ps.length then
      let r := allPipGoA (readBBAttr f) false ps
      ⟨r.1, r.2, f⟩
    else ⟨true, Except.ok false, f⟩
  | RegionA.scalar _ => ⟨true, Except.ok false, f⟩
  | RegionA.unrecognized => ⟨true, Except.ok false, f⟩

/-- `Feature.overlaps(self, other)`, attribute-aware.  The Feature branch
first iterates `other.boundingBox` — `TypeError` when the *other* feature's
attribute is still the bound method — then tests each corner against
`bounds`; the box branch chains `self.contains` over the four corners
(each a point test against `bounds`). -/
def overlapsPy (f : PyFeature) (o : RegionA) : AOut :=
  match o with
  | RegionA.feature g =>
    match readBBAttr g with
    | none => ⟨false, Except.error (), f⟩
    | some corners =>
      let r := anyPipGoA (readBBAttr f) false true corners
      ⟨r.1, r.2, f⟩
  | RegionA.point p =>
    let r := pipAttr p (readBBAttr f)
    ⟨r.warned, r.value, f⟩
  | RegionA.circle cx cy cr =>
    match readBBAttr f with
    | none => ⟨false, Except.error (), f⟩
    | some l =>
      ⟨false, Except.ok (l.any fun p =>
        decide ((cx - p.1) * (cx - p.1) + (cy - p.2) * (cy - p.2) < cr * cr)), f⟩
  | RegionA.box x0 y0 w0 h0 =>
    let r := anyPipGoA (readBBAttr f) false false
      [(x0, y0), (x0 + w0, y0), (x0, y0 + h0), (x0 + w0, y0 + h0)]
    ⟨r.1, r.2, f⟩
  | RegionA.poly ps =>
    if 3 ≤ ps.length then
      let r := anyPipGoA (readBBAttr f) false false ps
      ⟨r.1, r.2, f⟩
    else ⟨true, Except.ok false, f⟩
  | RegionA.scalar _ => ⟨true, Except.ok false, f⟩
  | RegionA.unrecognized => ⟨true, Except.ok false, f⟩

/-- `Feature.isContainedWithin(self, other)`, attribute-aware.  The circle
and polygon branches iterate `bounds` (`TypeError` on a never-populated
receiver); the Feature branch delegates to `other.contains(self)`; the box
branch runs `_updateExtents`. -/
def isContainedWithinPy (f : PyFeature) (o : RegionA) : AOut :=
  match o with
  | RegionA.feature g =>
    let c := containsPy g (RegionA.feature f)
    ⟨c.warned, c.value, f⟩
  | RegionA.circle cx cy cr =>
    match readBBAttr f with
    | none => ⟨false, Except.error (), f⟩
    | some l =>
      ⟨false, Except.ok (l.all fun p =>
        !(decide (cr * cr < (cx - p.1) * (cx - p.1) + (cy - p.2) * (cy - p.2)))), f⟩
  | RegionA.box x0 y0 w0 h0 =>
    let f2 := updateExtentsPy f
    ⟨false, Except.ok (leMaxE f2.core.mMaxX (x0 + w0) && geMinE f2.core.mMinX x0 &&
                       leMaxE f2.core.mMaxY (y0 + h0) && geMinE f2.core.mMinY y0), f2⟩
  | RegionA.poly ps =>
    if 2 < ps.length then
      match readBBAttr f with
      | none => ⟨false, Except.error (), f⟩
      | some l =>
        let r := allPipGo ps false l
        ⟨r.1, r.2, f⟩
    else ⟨true, Except.ok false, f⟩
  | RegionA.point _ => ⟨true, Except.ok false, f⟩
  | RegionA.scalar _ => ⟨true, Except.ok false, f⟩
  | RegionA.unrecognized => ⟨true, Except.ok false, f⟩

/-- Result of a directional predicate: the Python return value (`none` is
Python `None`) and whether a warning fired.  The extent accessors these
predicates call also populate the cache; the returned values are exactly
the post-`_updateExtents` field values used here. -/
structure DOut where
  value : Option Bool
  warned : Bool
deriving DecidableEq

/-- Comparison `maxExtent < minExtent` on accessor values, where `none` on
the left is the `-infinity` sentinel and `none` on the right `infinity`. -/
def oltMM : Option ℚ → Option ℚ → Bool
  | some a, some b => decide (a < b)
  | _, _ => true

/-- Comparison `minExtent > maxExtent`, sentinels dual to `oltMM`. -/
def ogtMM : Option ℚ → Option ℚ → Bool
  | some a, some b => decide (b < a)
  | _, _ => true

/-- Comparison `maxExtent < q` against a plain coordinate. -/
def oltS : Option ℚ → ℚ → Bool
  | none, _ => true
  | some a, b => decide (a < b)

/-- Comparison `minExtent > q` against a plain coordinate. -/
def ogtS : Option ℚ → ℚ → Bool
  | none, _ => true
  | some a, b => decide (b < a)

/-- `Feature.above(self, object)`: Feature ⇒ `self.maxY() < object.minY()`;
tuple or ndarray (point, circle or box alike) ⇒ `self.maxY() < object[1]`;
scalar ⇒ direct comparison; anything else (including a plain list) warns
and returns `None`. -/
def Feature.above (f : Feature) (o : Region) : DOut :=
  match o with
  | Region.feature g => ⟨some (oltMM (maxYv f) (minYv g)), false⟩
  | Region.point p => ⟨some (oltS (maxYv f) p.2), false⟩
  | Region.circle _ cy _ => ⟨some (oltS (maxYv f) cy), false⟩
  | Region.box _ y0 _ _ => ⟨some (oltS (maxYv f) y0), false⟩
  | Region.scalar v => ⟨some (oltS (maxYv f) v), false⟩
  | Region.poly _ => ⟨none, true⟩
  | Region.unrecognized => ⟨none, true⟩

/-- `Feature.below(self, object)`: Feature ⇒ `self.minY() > object.maxY()`;
tuple/ndarray ⇒ `self.minY() > object[1]`; scalar ⇒ direct; else
warn + `None`. -/
def Feature.below (f : Feature) (o : Region) : DOut :=
  match o with
  | Region.feature g => ⟨some (ogtMM (minYv f) (maxYv g)), false⟩
  | Region.point p => ⟨some (ogtS (minYv f) p.2), false⟩
  | Region.circle _ cy _ => ⟨some (ogtS (minYv f) cy), false⟩
  | Region.box _ y0 _ _ => ⟨some (ogtS (minYv f) y0), false⟩
  | Region.scalar v => ⟨some (ogtS (minYv f) v), false⟩
  | Region.poly _ => ⟨none, true⟩
  | Region.unrecognized => ⟨none, true⟩

/-- `Feature.left(self, object)`: Feature ⇒ `self.maxX() < object.minX()`;
tuple/ndarray ⇒ `self.maxX() < object[0]`; scalar ⇒ direct; else
warn + `None`. -/
def Feature.left (f : Feature) (o : Region) : DOut :=
  match o with
  | Region.feature g => ⟨some (oltMM (maxXv f) (minXv g)), false⟩
  | Region.point p => ⟨some (oltS (maxXv f) p.1), false⟩
  | Region.circle cx _ _ => ⟨some (oltS (maxXv f) cx), false⟩
  | Region.box x0 _ _ _ => ⟨some (oltS (maxXv f) x0), false⟩
  | Region.scalar v => ⟨some (oltS (maxXv f) v), false⟩
  | Region.poly _ => ⟨none, true⟩
  | Region.unrecognized => ⟨none, true⟩

/-- `Feature.right(self, object)`: Feature ⇒ `self.minX() > object.maxX()`;
tuple/ndarray ⇒ `self.minX() > object[0]`; scalar ⇒ direct; else
warn + `None`. -/
def Feature.right (f : Feature) (o : Region) : DOut :=
  match o with
  | Region.feature g => ⟨some (ogtMM (minXv f) (maxXv g)), false⟩
  | Region.point p => ⟨some (ogtS (minXv f) p.1), false⟩
  | Region.circle cx _ _ => ⟨some (ogtS (minXv f) cx), false⟩
  | Region.box x0 _ _ _ => ⟨some (ogtS (minXv f) x0), false⟩
  | Region.scalar v => ⟨some (ogtS (minXv f) v), false⟩
  | Region.poly _ => ⟨none, true⟩
  | Region.unrecognized => ⟨none, true⟩

/-- A `FeatureSet` is a Python list of features. -/
abbrev FeatureSet : Type := List Feature

/-- `FeatureSet.sortArea()` = `FeatureSet(sorted(self, key=lambda f: f.area()))`.
Python's `sorted` is exactly the stable ascending sort by the key: its
output is the unique permutation that is sorted by `area` and keeps equal
keys in their original relative order, modelled here by the stable
`List.insertionSort`. -/
def FeatureSet.sortArea (fs : FeatureSet) : FeatureSet :=
  List.insertionSort (fun a b => Feature.area a ≤ Feature.area b) fs

/-- NumPy boolean-mask selection `np.array(self)[np.array(mask)]` for a mask
of matching length: the elements at `True` positions, in order. -/
def npSelect (fs : List Feature) (mask : List Bool) : List Feature :=
  (fs.zip mask).filterMap (fun fb => if fb.2 then some fb.1 else none)

/-- `FeatureSet.filter(self, filterarray)` =
`FeatureSet(list(np.array(self)[np.array(filterarray)]))`.  NumPy raises
`IndexError` when a boolean mask's length does not match the axis; that
uncaught exception is the `InvalidArgument` signal. -/
def FeatureSet.filter (fs : FeatureSet) (mask : List Bool) : Except Unit FeatureSet :=
  if mask.length = fs.length then Except.ok (npSelect fs mask) else Except.error ()

/-- Modelled from the spec: "returns a new collection containing exactly the
elements whose corresponding mask entry is true", by simultaneous
recursion on collection and mask. -/
def maskSelectSpec : List Feature → List Bool → List Feature
  | f :: fs, b :: ms => if b then f :: maskSelectSpec fs ms else maskSelectSpec fs ms
  | _, _ => []

/-- Squared Euclidean distance between two points.  `spsd.cdist`/
`spsd.euclidean` return the square root of this; the square root is
strictly monotone on nonnegatives, so distances are compared and reported
here by their exact rational squares. -/
def sqDist (p q : Pt) : ℚ :=
  (p.1 - q.1) * (p.1 - q.1) + (p.2 - q.2) * (p.2 - q.2)

/-- `FeatureSet.distanceFrom(self, point=(-1,-1))`, with distances squared
(see `sqDist`).  The guard is Python's
`if (point[0] == -1 or point[1] == -1 and len(self)):`, whose `and` binds
tighter than `or`; when it fires the reference point is
`self[0].image.size()` (raising `IndexError` on an empty collection).
`spsd.cdist` rejects the empty coordinate array of an empty collection. -/
def distanceFromSq (fs : FeatureSet) (point : Pt) : Except Unit (List ℚ) :=
  if point.1 = -1 ∨ (point.2 = -1 ∧ fs.length ≠ 0) then
    match fs with
    | [] => Except.error ()
    | f :: _ => Except.ok (fs.map fun g => sqDist (g.x, g.y) f.image.size)
  else
    if fs.length = 0 then Except.error ()
    else Except.ok (fs.map fun g => sqDist (g.x, g.y) point)

/-- Modelled from the spec: `distanceFrom` whose default reference point is
the CENTER of the collection's image (`"Default is the center of the
image"`, and `Feature.distanceFrom` uses `np.array(self.image.size()) / 2`),
with distances squared as in `distanceFromSq`. -/
def distanceFromSpecSq (fs : FeatureSet) (point : Pt) : Except Unit (List ℚ) :=
  if point.1 = -1 ∨ (point.2 = -1 ∧ fs.length ≠ 0) then
    match fs with
    | [] => Except.error ()
    | f :: _ =>
      Except.ok (fs.map fun g => sqDist (g.x, g.y) (f.image.size.1 / 2, f.image.size.2 / 2))
  else
    if fs.length = 0 then Except.error ()
    else Except.ok (fs.map fun g => sqDist (g.x, g.y) point)

/-- The square polygon of the spec's point-in-polygon test. -/
def square10 : List Pt := [(0, 0), (0, 10), (10, 10), (10, 0)]

/-- A 100 × 100 backing image. -/
def img100 : Image := ⟨100, 100⟩

/-- The square `[(0,0),(0,4),(4,4),(4,0)]` of the spec's round-trip test. -/
def sq4 : List Pt := [(0, 0), (0, 4), (4, 4), (4, 0)]

/-- A fresh feature (extents never computed) whose boundary is `sq4`. -/
def fTest : Feature := ⟨0, 0, img100, sq4, none, none, none, none, []⟩

/-- `fTest` after its extents were computed (some extent accessor ran). -/
def fPop : Feature := updateExtents fTest

/-- `fTest` with its attribute state: extents never computed, so the
`boundingBox` attribute read still yields the bound method. -/
def fTestPy : PyFeature := ⟨fTest, false⟩

/-- A fresh feature lying above `y = 10`, for the directional witnesses. -/
def gTest : Feature := ⟨0, 12, img100, [(0, 10), (0, 14), (4, 14), (4, 10)], none, none, none, none, []⟩

/-- Feature of area 30 (bounding box 5 × 6). -/
def gA : Feature := ⟨0, 0, img100, [(0, 0), (5, 6)], none, none, none, none, []⟩

/-- Feature of area 10 (bounding box 2 × 5). -/
def gB : Feature := ⟨1, 0, img100, [(0, 0), (2, 5)], none, none, none, none, []⟩

/-- Feature of area 20 (bounding box 4 × 5). -/
def gC : Feature := ⟨2, 0, img100, [(0, 0), (4, 5)], none, none, none, none, []⟩

/-- A second feature of area 10, distinct from `gB`, for the stability witness. -/
def gB2 : Feature := ⟨3, 0, img100, [(0, 0), (2, 5)], none, none, none, none, []⟩

/-! ## Theorems -/

/-- Helper: `_updateExtents` recomputes all four extents and the corner list
whenever `mMaxX` is unset. -/
theorem updateExtents_unset {f : Feature} (h : f.mMaxX = none) :
    updateExtents f =
      { f with
        mMaxX := maxO (f.points.map Prod.fst)
        mMaxY := maxO (f.points.map Prod.snd)
        mMinX := minO (f.points.map Prod.fst)
        mMinY := minO (f.points.map Prod.snd)
        boundingBox := derivedCorners f.points } := by
  unfold updateExtents
  rw [if_pos (Or.inl h)]

/-- Helper: once the `boundingBox` attribute has been written, the
attribute-aware `containsPy` agrees with the attribute-written projection
`Feature.contains` (shown for the point and circle branches, the ones the
containment claims exercise). -/
theorem containsPy_agrees_when_set (f : PyFeature) (hs : f.bbSet = true)
    (p : Pt) (cx cy cr : ℚ) :
    (containsPy f (RegionA.point p)).value =
      (Feature.contains f.core (Region.point p)).value ∧
    (containsPy f (RegionA.point p)).warned =
      (Feature.contains f.core (Region.point p)).warned ∧
    (containsPy f (RegionA.circle cx cy cr)).value =
      (Feature.contains f.core (Region.circle cx cy cr)).value := by
  refine ⟨?_, ?_, ?_⟩ <;>
    simp [containsPy, Feature.contains, pipAttr, readBBAttr, hs]

/-- CLAIM C10.  For a feature whose `points` are
`[(0,0),(0,4),(4,4),(4,0)]`: `width() = 4`, `height() = 4`, `area() = 16`,
`topLeftCorner() = (0,0)` and `bottomRightCorner() = (4,4)`. -/
theorem c10_roundtrip :
    Feature.width fTest = 4 ∧ Feature.height fTest = 4 ∧
    Feature.area fTest = 16 ∧
    topLeftCorner fTest = (some 0, some 0) ∧
    bottomRightCorner fTest = (some 4, some 4) := by
  refine ⟨?_, ?_, ?_, ?_, ?_⟩ <;>
    norm_num [Feature.area, Feature.width, Feature.height, topLeftCorner,
      bottomRightCorner, updateExtents, derivedCorners, fTest, sq4, maxO, minO,
      List.cons_ne_nil]

/-- CLAIM C7.  On features whose extents were not yet computed (so the
accessors return the point-derived values), `above` compares
`self.maxY() < other.minY()`, and `below`/`left`/`right` make the mirrored
comparisons; each directional predicate equals the direct coordinate
comparison of the corresponding extents, in particular for disjoint
non-touching bounding boxes. -/
theorem c7_directional (f g : Feature) (hf : f.mMaxX = none) (hg : g.mMaxX = none) :
    (Feature.above f (Region.feature g)).value =
      some (oltMM (maxO (f.points.map Prod.snd)) (minO (g.points.map Prod.snd))) ∧
    (Feature.below f (Region.feature g)).value =
      some (ogtMM (minO (f.points.map Prod.snd)) (maxO (g.points.map Prod.snd))) ∧
    (Feature.left f (Region.feature g)).value =
      some (oltMM (maxO (f.points.map Prod.fst)) (minO (g.points.map Prod.fst))) ∧
    (Feature.right f (Region.feature g)).value =
      some (ogtMM (minO (f.points.map Prod.fst)) (maxO (g.points.map Prod.fst))) := by
  refine ⟨?_, ?_, ?_, ?_⟩ <;>
    simp [Feature.above, Feature.below, Feature.left, Feature.right,
      maxYv, minYv, maxXv, minXv, updateExtents_unset hf, updateExtents_unset hg]

/-- Witness for C7: `fTest` (box 0..4 × 0..4) against `gTest`
(box 0..4 × 10..14): `above` holds and the other three fail, matching the
direct extent comparisons. -/
theorem c7_directional_witness :
    (Feature.above fTest (Region.feature gTest)).value = some true ∧
    (Feature.below fTest (Region.feature gTest)).value = some false ∧
    (Feature.left fTest (Region.feature gTest)).value = some false ∧
    (Feature.right fTest (Region.feature gTest)).value = some false := by
  obtain ⟨h1, h2, h3, h4⟩ := c7_directional fTest gTest rfl rfl
  rw [h1, h2, h3, h4]
  norm_num [fTest, gTest, sq4, maxO, minO, oltMM, ogtMM]

/-- CLAIM C2 (counterexample).  The claim says `contains((x,y,r))` is true
iff every corner of the bounding box lies within distance `r` of `(x,y)`.
For `fPop` (corners `(0,0),(0,4),(4,4),(4,0)`) and the circle `(2,2,10)`
every corner is within distance 10 (squared distances 8 ≤ 100), yet the
code returns `False`. -/
theorem c2_claim_counterexample :
    (∀ p ∈ fPop.boundingBox,
      (2 - p.1) * (2 - p.1) + (2 - p.2) * (2 - p.2) ≤ 10 * 10) ∧
    (Feature.contains fPop (Region.circle 2 2 10)).value = Except.ok false := by
  constructor
  · norm_num [fPop, fTest, updateExtents, derivedCorners, sq4, maxO, minO]
  · norm_num [Feature.contains, fPop, fTest, updateExtents, derivedCorners,
      sq4, maxO, minO]

/-- CLAIM C2 (amended).  `contains((x,y,r))` returns true iff NO corner of
the feature's `boundingBox` list lies strictly within distance `r` of the
circle center, i.e. every corner has squared distance at least `r²` (the
code sets the result `False` as soon as a corner satisfies
`(x-px)² + (y-py)² < r²`). -/
theorem c2_contains_circle_corrected (f : Feature) (cx cy cr : ℚ) :
    (Feature.contains f (Region.circle cx cy cr)).value = Except.ok true ↔
      ∀ p ∈ f.boundingBox,
        cr * cr ≤ (cx - p.1) * (cx - p.1) + (cy - p.2) * (cy - p.2) := by
  simp [Feature.contains, List.all_eq_true, not_lt]

/-- Witness for C2 (amended) on `fPop` and the circle `(2,2,1)`: every
corner is at squared distance ≥ 1, and `contains` indeed returns `True`. -/
theorem c2_contains_circle_corrected_witness :
    (Feature.contains fPop (Region.circle 2 2 1)).value = Except.ok true := by
  rw [c2_contains_circle_corrected]
  norm_num [fPop, fTest, updateExtents, derivedCorners, sq4, maxO, minO]

/-- CLAIM C3.  `contains`, `overlaps` and the non-Feature branches of
`isContainedWithin` read `bounds = self.boundingBox` directly, without
invoking the lazy extents computation: the receiver state is unchanged in
every branch that uses `bounds`, and the result depends only on that
attribute read.  On a feature for which no extents/corner accessor has run
the attribute is still the shadowing bound method (`readBBAttr = none`),
not the points-derived 4-corner list, so these predicates do not operate
on the points-derived bounding polygon: a point query on such a feature
raises an uncaught `TypeError` (no warning, no Boolean) instead of testing
the polygon, while after an extent accessor has run the attribute read
yields exactly the derived corner list. -/
theorem c3_lazy_boundingBox (f f2 : PyFeature) (p : Pt) (cx cy cr : ℚ)
    (ps : List Pt) (g : PyFeature)
    (hbb : readBBAttr f = readBBAttr f2) (hset : f.bbSet = false)
    (hx : f.core.mMaxX = none) :
    ((containsPy f (RegionA.point p)).selfF = f ∧
     (containsPy f (RegionA.circle cx cy cr)).selfF = f ∧
     (containsPy f (RegionA.poly ps)).selfF = f ∧
     (containsPy f (RegionA.feature g)).selfF = f ∧
     (overlapsPy f (RegionA.point p)).selfF = f ∧
     (overlapsPy f (RegionA.circle cx cy cr)).selfF = f ∧
     (overlapsPy f (RegionA.poly ps)).selfF = f ∧
     (overlapsPy f (RegionA.feature g)).selfF = f ∧
     (isContainedWithinPy f (RegionA.circle cx cy cr)).selfF = f ∧
     (isContainedWithinPy f (RegionA.poly ps)).selfF = f) ∧
    ((containsPy f (RegionA.point p)).value =
       (containsPy f2 (RegionA.point p)).value ∧
     (overlapsPy f (RegionA.circle cx cy cr)).value =
       (overlapsPy f2 (RegionA.circle cx cy cr)).value ∧
     (isContainedWithinPy f (RegionA.circle cx cy cr)).value =
       (isContainedWithinPy f2 (RegionA.circle cx cy cr)).value) ∧
    (readBBAttr f = none ∧
     readBBAttr f ≠ some (derivedCorners f.core.points)) ∧
    ((containsPy f (RegionA.point p)).value = Except.error () ∧
     (containsPy f (RegionA.point p)).warned = false ∧
     readBBAttr (updateExtentsPy f) = some (derivedCorners f.core.points)) := by
  have hnone : readBBAttr f = none := by simp [readBBAttr, hset]
  refine ⟨⟨rfl, ?_, ?_, rfl, rfl, ?_, ?_, ?_, ?_, ?_⟩, ⟨?_, ?_, ?_⟩,
    ⟨hnone, ?_⟩, ?_, ?_, ?_⟩
  · simp only [containsPy]; cases readBBAttr f <;> rfl
  · simp only [containsPy]; split <;> rfl
  · simp only [overlapsPy]; cases readBBAttr f <;> rfl
  · simp only [overlapsPy]; split <;> rfl
  · simp only [overlapsPy]; cases readBBAttr g <;> rfl
  · simp only [isContainedWithinPy]; cases readBBAttr f <;> rfl
  · simp only [isContainedWithinPy]; split
    · cases readBBAttr f <;> rfl
    · rfl
  · simp only [containsPy]; rw [hbb]
  · simp only [overlapsPy]; rw [hbb]; cases readBBAttr f2 <;> rfl
  · simp only [isContainedWithinPy]; rw [hbb]; cases readBBAttr f2 <;> rfl
  · rw [hnone]; exact fun hc => Option.noConfusion hc
  · simp [containsPy, pipAttr, hnone]
  · simp [containsPy, pipAttr, hnone]
  · simp [updateExtentsPy, hx, readBBAttr, updateExtents_unset hx]

/-- Witness for C3 on the fresh feature `fTestPy` at the point `(2,2)`:
the attribute read yields the bound method sentinel, the point query
raises without warning, and only after `_updateExtents` does the
attribute hold the points-derived corner list. -/
theorem c3_lazy_boundingBox_witness :
    readBBAttr fTestPy = none ∧
    (containsPy fTestPy (RegionA.point (2, 2))).value = Except.error () ∧
    (containsPy fTestPy (RegionA.point (2, 2))).warned = false ∧
    readBBAttr (updateExtentsPy fTestPy) = some (derivedCorners fTestPy.core.points) :=
  have h := c3_lazy_boundingBox fTestPy fTestPy (2, 2) 0 0 0 [] fTestPy rfl rfl rfl
  ⟨h.2.2.1.1, h.2.2.2.1, h.2.2.2.2.1, h.2.2.2.2.2⟩

/-- CLAIM C8.  A directional predicate given a region of unrecognized shape
(anything that is not a Feature, tuple/ndarray or scalar — including a
plain list) warns (`UnsupportedRegionType`) and returns `None`, a result
distinct from `False`, without raising. -/
theorem c8_unsupported_region_type (f : Feature) (ps : List Pt) :
    Feature.above f Region.unrecognized = ⟨none, true⟩ ∧
    Feature.below f Region.unrecognized = ⟨none, true⟩ ∧
    Feature.left f Region.unrecognized = ⟨none, true⟩ ∧
    Feature.right f Region.unrecognized = ⟨none, true⟩ ∧
    Feature.above f (Region.poly ps) = ⟨none, true⟩ ∧
    (∀ b : Bool, (Feature.above f Region.unrecognized).value ≠ some b) := by
  refine ⟨rfl, rfl, rfl, rfl, rfl, ?_⟩
  intro b
  simp [Feature.above]

/-- Witness for C8 at the concrete feature `fTest`. -/
theorem c8_unsupported_region_type_witness :
    Feature.above fTest Region.unrecognized = ⟨none, true⟩ :=
  (c8_unsupported_region_type fTest []).1

/-- Helper: the NumPy mask selection equals the spec's recursion. -/
theorem npSelect_eq_spec (fs : List Feature) :
    ∀ mask : List Bool, npSelect fs mask = maskSelectSpec fs mask := by
  induction fs with
  | nil => intro mask; cases mask <;> rfl
  | cons f t ih =>
    intro mask
    cases mask with
    | nil => rfl
    | cons b ms =>
      cases b <;>
        simpa [npSelect, maskSelectSpec, List.filterMap_cons] using ih ms

/-- Helper: the selected elements form a sublist (relative order kept). -/
theorem maskSelectSpec_sublist (fs : List Feature) :
    ∀ mask : List Bool, List.Sublist (maskSelectSpec fs mask) fs := by
  induction fs with
  | nil => intro mask; cases mask <;> simp [maskSelectSpec]
  | cons f t ih =>
    intro mask
    cases mask with
    | nil => exact List.nil_sublist _
    | cons b ms =>
      cases b with
      | false => exact List.Sublist.cons f (ih ms)
      | true => exact List.Sublist.cons₂ f (ih ms)

/-- CLAIM C5.  `sortArea()` returns a new collection that is a permutation
of the receiver sorted ascending by `area()`, with equal areas keeping
their original relative order (stability), and for the concrete areas
`[30, 10, 20]` the result is ordered with areas `[10, 20, 30]`. -/
theorem c5_sortArea (fs : FeatureSet) :
    List.Perm (FeatureSet.sortArea fs) fs ∧
    List.Sorted (fun a b => Feature.area a ≤ Feature.area b) (FeatureSet.sortArea fs) ∧
    (∀ a b : Feature, Feature.area a = Feature.area b → List.Sublist [a, b] fs →
      List.Sublist [a, b] (FeatureSet.sortArea fs)) ∧
    FeatureSet.sortArea [gA, gB, gC] = [gB, gC, gA] ∧
    List.map Feature.area [gB, gC, gA] = [10, 20, 30] := by
  haveI : IsTotal Feature (fun a b => Feature.area a ≤ Feature.area b) :=
    ⟨fun a b => le_total _ _⟩
  haveI : IsTrans Feature (fun a b => Feature.area a ≤ Feature.area b) :=
    ⟨fun a b c h1 h2 => le_trans h1 h2⟩
  refine ⟨List.perm_insertionSort _ fs, List.sorted_insertionSort _ fs, ?_, ?_, ?_⟩
  · intro a b hab h
    exact List.pair_sublist_insertionSort (le_of_eq hab) h
  · norm_num [FeatureSet.sortArea, List.insertionSort, List.orderedInsert,
      Feature.area, Feature.width, Feature.height, gA, gB, gC, maxO, minO,
      List.cons_ne_nil]
  · norm_num [Feature.area, Feature.width, Feature.height, gA, gB, gC,
      maxO, minO, List.cons_ne_nil]

/-- Witness for C5 stability: two distinct features of equal area 10 keep
their relative order through `sortArea`. -/
theorem c5_sortArea_witness :
    Feature.area gB = Feature.area gB2 ∧ List.Sublist [gB, gB2] [gA, gB, gB2] ∧
    List.Sublist [gB, gB2] (FeatureSet.sortArea [gA, gB, gB2]) := by
  have h1 : Feature.area gB = Feature.area gB2 := rfl
  have h2 : List.Sublist [gB, gB2] [gA, gB, gB2] := List.Sublist.cons gA (List.Sublist.refl _)
  exact ⟨h1, h2, (c5_sortArea [gA, gB, gB2]).2.2.1 gB gB2 h1 h2⟩

/-- CLAIM C6.  `filter(mask)` with a mask of matching length returns
exactly the elements at `True` positions in their original order (a
sublist of the receiver); a mask of any other length raises
(`InvalidArgument` via NumPy's `IndexError`).  Concretely, the mask
`[true, false, true]` on a length-3 collection keeps the first and third
elements. -/
theorem c6_filter (fs : FeatureSet) (mask : List Bool) :
    (mask.length = fs.length →
      FeatureSet.filter fs mask = Except.ok (maskSelectSpec fs mask)) ∧
    (mask.length ≠ fs.length → FeatureSet.filter fs mask = Except.error ()) ∧
    List.Sublist (maskSelectSpec fs mask) fs ∧
    FeatureSet.filter [gA, gB, gC] [true, false, true] = Except.ok [gA, gC] := by
  refine ⟨?_, ?_, maskSelectSpec_sublist fs mask, ?_⟩
  · intro h
    simp [FeatureSet.filter, h, npSelect_eq_spec]
  · intro h
    simp [FeatureSet.filter, h]
  · norm_num [FeatureSet.filter, npSelect, List.filterMap_cons]

/-- Witness for C6: a length-1 mask on a length-2 collection raises, and a
matching mask selects by position. -/
theorem c6_filter_witness :
    FeatureSet.filter [gA, gB] [true] = Except.error () ∧
    FeatureSet.filter [gA, gB] [false, true] = Except.ok (maskSelectSpec [gA, gB] [false, true]) :=
  ⟨(c6_filter [gA, gB] [true]).2.1 (by simp),
   (c6_filter [gA, gB] [false, true]).1 (by simp)⟩

/-- CLAIM C9.  `FeatureSet.distanceFrom()` without a point argument on a
non-empty collection: the code takes the reference point to be
`self[0].image.size()` — the full image size, not the image center its own
docstring promises.  For one feature at `(0,0)` on a 100 × 100 image the
squared distance is `20000` (reference `(100,100)`), whereas the
documented center `(50,50)` gives `5000`; per-element distances are
otherwise reported in collection order. -/
theorem c9_distanceFrom_default :
    distanceFromSq [mkFeature img100 0 0] (-1, -1) = Except.ok [20000] ∧
    distanceFromSpecSq [mkFeature img100 0 0] (-1, -1) = Except.ok [5000] ∧
    distanceFromSq [mkFeature img100 0 0] (-1, -1) ≠
      distanceFromSpecSq [mkFeature img100 0 0] (-1, -1) := by
  refine ⟨?_, ?_, ?_⟩ <;>
    norm_num [distanceFromSq, distanceFromSpecSq, mkFeature, img100,
      Image.size, sqDist]

set_option maxHeartbeats 2000000 in
/-- CLAIM C1.  For the square `[(0,0),(0,10),(10,10),(10,0)]` the spec says
`(5,5)` is classified inside and `(15,5)` outside, with no fault.  The code
disagrees at `(5,5)`: on the edge `(10,10) → (10,0)` the mis-parenthesised
denominator `(p2.y - p1.y) + p1.x = 0` makes the division raise
`ZeroDivisionError`.  `(15,5)` is classified outside without fault, and the
function is deterministic, as computed here. -/
theorem c1_pointInPolygon_square :
    pointInsidePolygon (5, 5) square10 = ⟨false, Except.error ()⟩ ∧
    pointInsidePolygon (15, 5) square10 = ⟨false, Except.ok false⟩ := by
  constructor <;>
    norm_num [pointInsidePolygon, square10, pipEdges, pipGo, edgeStep, pymin, pymax]

/-- CLAIM C4.  A polygon with fewer than 3 vertices makes
`_pointInsidePolygon` warn (`InvalidGeometry` diagnostic) and return the
outside result `False`, raising nothing, for every point. -/
theorem c4_degenerate_polygon (point : Pt) (polygon : List Pt)
    (h : polygon.length < 3) :
    pointInsidePolygon point polygon = ⟨true, Except.ok false⟩ := by
  unfold pointInsidePolygon
  rw [if_pos h]

/-- Witness for C4 at the concrete 2-point polygon of the spec. -/
theorem c4_degenerate_polygon_witness :
    ([((0 : ℚ), (0 : ℚ)), (4, 4)].length < 3) ∧
    pointInsidePolygon (1, 1) [(0, 0), (4, 4)] = ⟨true, Except.ok false⟩ :=
  ⟨by simp, c4_degenerate_polygon (1, 1) [(0, 0), (4, 4)] (by simp)⟩

end SimpleCV
